import Mathlib

/-
Verification development for the STATS repository: per-(member, month)
like/dislike counters maintained from Slack reaction events, plus a
monthly leaderboard query.  The definitions below shallowly embed the
Go source: `stats` package value types (member.go, errors.go), the
sqlite `MemberService` and `LeaderboardService` (sqlite member service,
sqlite/leaderboard.go, the SQL queries), and the HTTP reaction handlers
(http/slack.go).  Wall-clock time is passed explicitly as a `Nat`;
RFC3339 formatting/parsing of timestamps written and read back by this
store is modelled as the identity on those values.
-/

namespace Stats

/-- Go error values as used by the repository: the `stats` package
sentinels `ErrNotFound` and `ErrInvalid` (errors.go), the driver
sentinel `sql.ErrNoRows`, a sqlite UNIQUE-constraint violation, free-form
errors, and `fmt.Errorf` with `%w` wrapping (`GoError.wrap`). -/
inductive GoError where
  | notFound
  | invalid
  | sqlNoRows
  | uniqueViolation
  | errMsg (s : String)
  | wrap (ctx : String) (inner : GoError)
deriving DecidableEq, Repr

/-- Model of Go `errors.Is`: compare against the target, unwrapping
`%w`-wrapped errors along the chain. -/
def GoError.is : GoError → GoError → Bool
  | .wrap c inner, target => (GoError.wrap c inner == target) || inner.is target
  | e, target => e == target

/-- The `stats.Member` record (member.go): one row of counters per
(SlackUID, month-year).  `date` is the canonical "YYYY-MM" string of
the `MonthYear` type. -/
structure Member where
  id : Int
  date : String
  slackUID : String
  receivedLikes : Int
  receivedDislikes : Int
  createdAt : Nat
  updatedAt : Nat
deriving DecidableEq, Repr

/-- The `stats.MemberUpdate` sparse patch (member.go): each counter is
either set to a value or left unchanged (`none` models a nil pointer). -/
structure MemberUpdate where
  receivedLikes : Option Int
  receivedDislikes : Option Int
deriving DecidableEq, Repr

/-- A row of the `members` table as the generated `gen.Member` exposes
it.  Timestamp columns hold the values written by the store (RFC3339
round-trip modelled as identity). -/
structure GenMember where
  id : Int
  monthYear : String
  slackUid : String
  receivedLikes : Int
  receivedDislikes : Int
  createdAt : Nat
  updatedAt : Nat
deriving DecidableEq, Repr

/-- The sqlite database state: the `members` table in insertion order
plus the next surrogate id the engine will assign. -/
structure DB where
  rows : List GenMember
  nextId : Int
deriving DecidableEq, Repr

/-- Modelled from the spec and the SQL: `gen.Queries.FindMemberByID`
(query `SELECT * FROM members WHERE id = ? LIMIT 1`); the generated
`:one` query returns `sql.ErrNoRows` when no row matches, as the
in-repo callers' `errors.Is(err, sql.ErrNoRows)` checks attest. -/
def genFindMemberByID (db : DB) (id : Int) : Except GoError GenMember :=
  match db.rows.find? (fun r => r.id == id) with
  | some r => .ok r
  | none => .error .sqlNoRows

/-- Modelled from the SQL query `FindMember` (`SELECT * FROM members
WHERE slack_uid = ? AND month_year = ? LIMIT 1`), returning
`sql.ErrNoRows` when no row matches. -/
def genFindMember (db : DB) (slackUid monthYear : String) : Except GoError GenMember :=
  match db.rows.find? (fun r => r.slackUid == slackUid && r.monthYear == monthYear) with
  | some r => .ok r
  | none => .error .sqlNoRows

/-- Modelled from the spec: the `members` table carries
`UNIQUE(identity, period_key)` and the counter columns default to zero
(the schema file is not under src/); the generated `CreateMember`
insert returns the new row (`RETURNING *`) or a uniqueness-violation
error when a row for the same (slack_uid, month_year) already exists. -/
def genCreateMember (db : DB) (slackUid monthYear : String) (createdAt updatedAt : Nat) :
    Except GoError (GenMember × DB) :=
  if db.rows.any (fun r => r.slackUid == slackUid && r.monthYear == monthYear) then
    .error .uniqueViolation
  else
    let row : GenMember :=
      { id := db.nextId, monthYear := monthYear, slackUid := slackUid,
        receivedLikes := 0, receivedDislikes := 0,
        createdAt := createdAt, updatedAt := updatedAt }
    .ok (row, { rows := db.rows ++ [row], nextId := db.nextId + 1 })

/-- Modelled from the SQL query `UpdateMember` (`UPDATE members SET
received_likes = ?, received_dislikes = ?, updated_at = ? WHERE id = ?`):
sets the three columns on the matching row; matching zero rows is not
an error. -/
def genUpdateMember (db : DB) (receivedLikes receivedDislikes : Int) (updatedAt : Nat)
    (id : Int) : DB :=
  { db with rows := db.rows.map (fun r =>
      if r.id == id then
        { r with receivedLikes := receivedLikes, receivedDislikes := receivedDislikes,
                 updatedAt := updatedAt }
      else r) }

/-- First row among those with maximal `receivedLikes`, mirroring
`ORDER BY received_likes DESC LIMIT 1` (tie order unspecified in SQL;
the model picks the first maximal row). -/
def maxByLikes : List GenMember → Option GenMember
  | [] => none
  | r :: rs =>
    match maxByLikes rs with
    | none => some r
    | some m => if m.receivedLikes > r.receivedLikes then some m else some r

/-- First row among those with maximal `receivedDislikes`, mirroring
`ORDER BY received_dislikes DESC LIMIT 1`. -/
def maxByDislikes : List GenMember → Option GenMember
  | [] => none
  | r :: rs =>
    match maxByDislikes rs with
    | none => some r
    | some m => if m.receivedDislikes > r.receivedDislikes then some m else some r

/-- Modelled from the SQL query `MostLikesReceived` (`:one`): the
period's row with maximal received likes, or `sql.ErrNoRows` when the
period has no rows. -/
def genMostLikesReceived (db : DB) (monthYear : String) : Except GoError GenMember :=
  match maxByLikes (db.rows.filter (fun r => r.monthYear == monthYear)) with
  | some r => .ok r
  | none => .error .sqlNoRows

/-- Modelled from the SQL query `MostDislikesReceived` (`:one`). -/
def genMostDislikesReceived (db : DB) (monthYear : String) : Except GoError GenMember :=
  match maxByDislikes (db.rows.filter (fun r => r.monthYear == monthYear)) with
  | some r => .ok r
  | none => .error .sqlNoRows

/-- Embeds `genMemberToMember` (sqlite member service): converts a table
row to a `stats.Member`; the month-year and RFC3339 parses of values
this store itself wrote always succeed and round-trip. -/
def genMemberToMember (g : GenMember) : Except GoError Member :=
  .ok { id := g.id, date := g.monthYear, slackUID := g.slackUid,
        receivedLikes := g.receivedLikes, receivedDislikes := g.receivedDislikes,
        createdAt := g.createdAt, updatedAt := g.updatedAt }

/-- Embeds `MemberService.FindMemberByID` (sqlite member service):
maps `sql.ErrNoRows` to `stats.ErrNotFound`, passes other errors
through, converts the row otherwise. -/
def FindMemberByID (db : DB) (id : Int) : Except GoError Member :=
  match genFindMemberByID db id with
  | .error e => if e == .sqlNoRows then .error .notFound else .error e
  | .ok g => genMemberToMember g

/-- Embeds `MemberService.FindMember` (sqlite member service): lookup
by (SlackUID, month-year); maps `sql.ErrNoRows` to `stats.ErrNotFound`. -/
def FindMember (db : DB) (slackUID date : String) : Except GoError Member :=
  match genFindMember db slackUID date with
  | .error e => if e == .sqlNoRows then .error .notFound else .error e
  | .ok g => genMemberToMember g

/-- Embeds `MemberService.CreateMember` (sqlite member service): sets
`m.CreatedAt = tx.now` and `m.UpdatedAt = m.CreatedAt`, inserts, then
copies the returned row's id and counters back into `m`.  On error the
transaction is rolled back, so the database is returned unchanged. -/
def CreateMember (db : DB) (now : Nat) (m : Member) : (Except GoError Member) × DB :=
  let m := { m with createdAt := now, updatedAt := now }
  match genCreateMember db m.slackUID m.date m.createdAt m.updatedAt with
  | .error e => (.error (.wrap "CreateMember" e), db)
  | .ok (genMem, db1) =>
    (.ok { m with id := genMem.id, receivedDislikes := genMem.receivedDislikes,
                  receivedLikes := genMem.receivedLikes }, db1)

/-- Embeds `MemberService.UpdateMember` (sqlite member service): reads
the row by id (the raw generated query, whose miss error is wrapped
as-is, not mapped to `stats.ErrNotFound`), overwrites each counter whose
patch field is set, and writes the counters back with
`updated_at = now`.  On error the database is returned unchanged. -/
def UpdateMember (db : DB) (now : Nat) (id : Int) (upd : MemberUpdate) :
    (Except GoError Unit) × DB :=
  match genFindMemberByID db id with
  | .error e => (.error (.wrap "UpdateMember FindMemberByID" e), db)
  | .ok genMember =>
    let likes := match upd.receivedLikes with
      | some v => v
      | none => genMember.receivedLikes
    let dislikes := match upd.receivedDislikes with
      | some v => v
      | none => genMember.receivedDislikes
    (.ok (), genUpdateMember db likes dislikes now id)

/-- The `stats.Leaderboard` value (leaderboard value type). -/
structure Leaderboard where
  date : String
  mostReceivedLikesMember : Member
  mostReceivedDislikesMember : Member
deriving DecidableEq, Repr

/-- Embeds `LeaderboardService.FindLeaderboard` (sqlite/leaderboard.go):
runs the two max queries and converts their rows; note the query errors
are returned as-is, without mapping `sql.ErrNoRows` to
`stats.ErrNotFound`. -/
def FindLeaderboard (db : DB) (date : String) : Except GoError Leaderboard :=
  match genMostLikesReceived db date with
  | .error e => .error e
  | .ok gLikes =>
    match genMemberToMember gLikes with
    | .error e => .error e
    | .ok likesMember =>
      match genMostDislikesReceived db date with
      | .error e => .error e
      | .ok gDislikes =>
        match genMemberToMember gDislikes with
        | .error e => .error e
        | .ok dislikesMember =>
          .ok { date := date, mostReceivedLikesMember := likesMember,
                mostReceivedDislikesMember := dislikesMember }

/-- The platform token for a thumbs-up reaction (http/slack.go),
mapped to the internal Like kind. -/
def ThumbsUp : String := "+1"

/-- The platform token for a thumbs-down reaction (http/slack.go),
mapped to the internal Dislike kind. -/
def ThumbsDown : String := "-1"

/-- Embeds the source file's own `max` helper on int64 (http/slack.go). -/
def max64 (a b : Int) : Int :=
  if a > b then a else b

/-- A reaction notification as the handlers consume it: `user` is the
reacting identity, `itemUser` the target identity, `reaction` the
platform reaction token. -/
structure ReactionEvent where
  user : String
  itemUser : String
  reaction : String
deriving DecidableEq, Repr

/-- The reaction-delta step of `HandleReactionAddedEvent`
(http/slack.go, the two-branch update after the member is resolved). -/
def applyAddedDelta (m : Member) (reaction : String) : Member :=
  if reaction == ThumbsUp then
    { m with receivedLikes := m.receivedLikes + 1 }
  else if reaction == ThumbsDown then
    { m with receivedDislikes := m.receivedDislikes + 1 }
  else m

/-- The reaction-delta step of `HandleReactionRemovedEvent`
(http/slack.go, decrements clamped at zero through `max`). -/
def applyRemovedDelta (m : Member) (reaction : String) : Member :=
  if reaction == ThumbsUp then
    { m with receivedLikes := max64 (m.receivedLikes - 1) 0 }
  else if reaction == ThumbsDown then
    { m with receivedDislikes := max64 (m.receivedDislikes - 1) 0 }
  else m

/-- The two reaction-notification kinds the reconciler consumes. -/
inductive EventKind where
  | added
  | removed
deriving DecidableEq, Repr

/-- Two's-complement wraparound onto the int64 range [-2^63, 2^63):
the value every Go int64 arithmetic operation actually stores. -/
def wrap64 (x : Int) : Int := (x + 2 ^ 63) % 2 ^ 64 - 2 ^ 63

/-- The reaction-delta step of `HandleReactionAddedEvent` with Go's
int64 semantics made explicit: the source's `ReceivedLikes += 1` (and
the dislike analogue) is an int64 addition, so its result wraps on
overflow. -/
def applyAddedDelta64 (m : Member) (reaction : String) : Member :=
  if reaction == ThumbsUp then
    { m with receivedLikes := wrap64 (m.receivedLikes + 1) }
  else if reaction == ThumbsDown then
    { m with receivedDislikes := wrap64 (m.receivedDislikes + 1) }
  else m

/-- The reaction-delta step of `HandleReactionRemovedEvent` with Go's
int64 semantics made explicit: the subtraction inside
`max(counter - 1, 0)` is an int64 subtraction and wraps on overflow
before the clamp is applied. -/
def applyRemovedDelta64 (m : Member) (reaction : String) : Member :=
  if reaction == ThumbsUp then
    { m with receivedLikes := max64 (wrap64 (m.receivedLikes - 1)) 0 }
  else if reaction == ThumbsDown then
    { m with receivedDislikes := max64 (wrap64 (m.receivedDislikes - 1)) 0 }
  else m

/-- The counter delta one reconcile event applies to a member record
under int64 semantics: the added-handler delta for Added events, the
removed-handler delta for Removed events; the second component is the
platform reaction token. -/
def applyReconcileEvent64 (m : Member) : EventKind × String → Member
  | (.added, r) => applyAddedDelta64 m r
  | (.removed, r) => applyRemovedDelta64 m r

/-- The `stats.MemberService` interface (member.go) restricted to the
operations the reaction handlers call, over an abstract service state
`σ`: the handlers in http/slack.go are written against this interface,
not against the sqlite implementation. -/
structure MemberServiceI (σ : Type) where
  findMember : σ → String → String → (Except GoError Member) × σ
  createMember : σ → Member → (Except GoError Member) × σ
  updateMember : σ → Int → MemberUpdate → (Except GoError Unit) × σ

/-- Outcome of one handler invocation: normal return with nil error,
return with a non-nil error, or a runtime panic (nil-pointer
dereference); each carries the service state reached. -/
inductive HandlerResult (σ : Type) where
  | ok (s : σ)
  | err (e : GoError) (s : σ)
  | panicked (s : σ)
deriving DecidableEq, Repr

/-- Service state carried by a handler outcome. -/
def HandlerResult.state : HandlerResult σ → σ
  | .ok s => s
  | .err _ s => s
  | .panicked s => s

/-- Embeds `Slack.HandleReactionAddedEvent` (http/slack.go) over an
abstract member service.  Mirrors the source control flow: the
target-identity filter; the `fmt.Printf` that calls `err.Error()`
unconditionally after `FindMember` (a panic when that error is nil);
the create-on-NotFound branch whose inner `err :=` shadows the outer
error; the delta; the `UpdateMember` call whose return value is
discarded; and the final `if err != nil` test of the outer, stale
error.  `monthYear` is the period the handler derives from the
processing clock. -/
def HandleReactionAddedEvent (svc : MemberServiceI σ) (s : σ) (monthYear : String)
    (e : ReactionEvent) : HandlerResult σ :=
  if e.itemUser == "USLACKBOT" || e.itemUser == "" then
    .ok s
  else
    match svc.findMember s e.itemUser monthYear with
    | (.ok _itemMember, s1) =>
      -- err == nil here, so the unconditional err.Error() dereferences nil.
      .panicked s1
    | (.error err, s1) =>
      if GoError.is err .notFound then
        let mem : Member :=
          { id := 0, date := monthYear, slackUID := e.user,
            receivedLikes := 0, receivedDislikes := 0, createdAt := 0, updatedAt := 0 }
        match svc.createMember s1 mem with
        | (.error ce, s2) =>
          .err (.wrap "HandleReactionAddedEvent CreateMember itemMember" ce) s2
        | (.ok mem1, s2) =>
          let itemMember := applyAddedDelta mem1 e.reaction
          let s3 := (svc.updateMember s2 itemMember.id
            { receivedLikes := some itemMember.receivedLikes,
              receivedDislikes := some itemMember.receivedDislikes }).2
          -- the outer err is still stats.ErrNotFound here, so the
          -- final nil check returns it.
          .err err s3
      else
        .err (.wrap "HandleReactionAddedEvent FindMember ItemUser" err) s1

/-- Embeds `Slack.HandleReactionRemovedEvent` (http/slack.go) over an
abstract member service.  Same shape as the added handler except the
delta clamps at zero and the `UpdateMember` result is assigned back to
the outer error, so its nil check is meaningful. -/
def HandleReactionRemovedEvent (svc : MemberServiceI σ) (s : σ) (monthYear : String)
    (e : ReactionEvent) : HandlerResult σ :=
  if e.itemUser == "USLACKBOT" || e.itemUser == "" then
    .ok s
  else
    match svc.findMember s e.itemUser monthYear with
    | (.ok _itemMember, s1) =>
      -- err == nil here, so the unconditional err.Error() dereferences nil.
      .panicked s1
    | (.error err, s1) =>
      if GoError.is err .notFound then
        let mem : Member :=
          { id := 0, date := monthYear, slackUID := e.user,
            receivedLikes := 0, receivedDislikes := 0, createdAt := 0, updatedAt := 0 }
        match svc.createMember s1 mem with
        | (.error ce, s2) =>
          .err (.wrap "HandleReactionAddedEvent CreateMember itemMember" ce) s2
        | (.ok mem1, s2) =>
          let itemMember := applyRemovedDelta mem1 e.reaction
          match svc.updateMember s2 itemMember.id
              { receivedLikes := some itemMember.receivedLikes,
                receivedDislikes := some itemMember.receivedDislikes } with
          | (.error ue, s3) => .err ue s3
          | (.ok _, s3) => .ok s3
      else
        .err (.wrap "HandleReactionAddedEvent FindMember ItemUser" err) s1

/-- The sqlite-backed member service the binary wires into the
handlers, with the transaction clock fixed to `now`. -/
def sqliteService (now : Nat) : MemberServiceI DB where
  findMember := fun db uid date => (FindMember db uid date, db)
  createMember := fun db m => CreateMember db now m
  updateMember := fun db id upd => UpdateMember db now id upd

/-- A member service exhibiting the concurrent-create race: lookup
reports NotFound, creation fails with the given error (for the race,
a uniqueness violation); the state counts (findMember calls,
createMember calls). -/
def racyService (ce : GoError) : MemberServiceI (Nat × Nat) where
  findMember := fun s _ _ => (.error .notFound, (s.1 + 1, s.2))
  createMember := fun s _ => (.error ce, (s.1, s.2 + 1))
  updateMember := fun s _ _ => (.ok (), s)

theorem wrap64_eq_of_range (x : Int) (h1 : -(2 ^ 63) ≤ x) (h2 : x < 2 ^ 63) :
    wrap64 x = x := by
  have h3 : 0 ≤ x + 2 ^ 63 := by omega
  have h4 : x + 2 ^ 63 < 2 ^ 64 := by omega
  rw [wrap64, Int.emod_eq_of_lt h3 h4]
  omega

theorem applyReconcileEvent64_bounds (ev : EventKind × String) (m : Member) (B : Int)
    (hB : B + 1 ≤ 2 ^ 63 - 1)
    (h1 : 0 ≤ m.receivedLikes) (h1b : m.receivedLikes ≤ B)
    (h2 : 0 ≤ m.receivedDislikes) (h2b : m.receivedDislikes ≤ B) :
    (0 ≤ (applyReconcileEvent64 m ev).receivedLikes ∧
      (applyReconcileEvent64 m ev).receivedLikes ≤ B + 1) ∧
    (0 ≤ (applyReconcileEvent64 m ev).receivedDislikes ∧
      (applyReconcileEvent64 m ev).receivedDislikes ≤ B + 1) := by
  have wl1 : wrap64 (m.receivedLikes + 1) = m.receivedLikes + 1 :=
    wrap64_eq_of_range _ (by omega) (by omega)
  have wd1 : wrap64 (m.receivedDislikes + 1) = m.receivedDislikes + 1 :=
    wrap64_eq_of_range _ (by omega) (by omega)
  have wl2 : wrap64 (m.receivedLikes - 1) = m.receivedLikes - 1 :=
    wrap64_eq_of_range _ (by omega) (by omega)
  have wd2 : wrap64 (m.receivedDislikes - 1) = m.receivedDislikes - 1 :=
    wrap64_eq_of_range _ (by omega) (by omega)
  obtain ⟨k, r⟩ := ev
  cases k <;>
    simp only [applyReconcileEvent64, applyAddedDelta64, applyRemovedDelta64,
      wl1, wd1, wl2, wd2, max64] <;>
    split_ifs <;> refine ⟨⟨?_, ?_⟩, ?_, ?_⟩ <;> first
      | omega
      | (simp only [wl1, wd1, wl2, wd2]
         omega)

theorem foldl_reconcile64_bounds (events : List (EventKind × String)) (m : Member)
    (B : Int) (hB : B + events.length ≤ 2 ^ 63 - 1)
    (h1 : 0 ≤ m.receivedLikes) (h1b : m.receivedLikes ≤ B)
    (h2 : 0 ≤ m.receivedDislikes) (h2b : m.receivedDislikes ≤ B) :
    (0 ≤ (events.foldl applyReconcileEvent64 m).receivedLikes ∧
      (events.foldl applyReconcileEvent64 m).receivedLikes ≤ B + events.length) ∧
    (0 ≤ (events.foldl applyReconcileEvent64 m).receivedDislikes ∧
      (events.foldl applyReconcileEvent64 m).receivedDislikes ≤ B + events.length) := by
  induction events generalizing m B with
  | nil =>
    simp only [List.foldl_nil, List.length_nil, Nat.cast_zero, add_zero]
    exact ⟨⟨h1, h1b⟩, h2, h2b⟩
  | cons ev evs ih =>
    have hlen : ((ev :: evs).length : Int) = evs.length + 1 := by
      simp [List.length_cons]
    have hB1 : B + 1 ≤ 2 ^ 63 - 1 := by
      rw [hlen] at hB
      have : (0:Int) ≤ evs.length := Int.natCast_nonneg _
      omega
    obtain ⟨⟨g1, g1b⟩, g2, g2b⟩ := applyReconcileEvent64_bounds ev m B hB1 h1 h1b h2 h2b
    have hB2 : (B + 1) + evs.length ≤ 2 ^ 63 - 1 := by
      rw [hlen] at hB
      omega
    have := ih (applyReconcileEvent64 m ev) (B + 1) hB2 g1 g1b g2 g2b
    simp only [List.foldl_cons]
    rw [hlen]
    constructor
    · exact ⟨this.1.1, by have := this.1.2; omega⟩
    · exact ⟨this.2.1, by have := this.2.2; omega⟩

theorem foldl_replicate_added_likes (n : Nat) (m : Member)
    (h1 : 0 ≤ m.receivedLikes) (h2 : m.receivedLikes + n ≤ 2 ^ 63 - 1) :
    ((List.replicate n ((EventKind.added, ThumbsUp) : EventKind × String)).foldl
        applyReconcileEvent64 m).receivedLikes = m.receivedLikes + n := by
  induction n generalizing m with
  | zero => simp
  | succ k ih =>
    rw [List.replicate_succ, List.foldl_cons]
    have hk : ((k : Int) + 1) = ((k + 1 : Nat) : Int) := by push_cast; ring
    have hstep : applyReconcileEvent64 m (EventKind.added, ThumbsUp) =
        { m with receivedLikes := wrap64 (m.receivedLikes + 1) } := rfl
    have hw : wrap64 (m.receivedLikes + 1) = m.receivedLikes + 1 := by
      refine wrap64_eq_of_range _ (by omega) ?_
      have : ((k : Int)) ≤ ((k + 1 : Nat) : Int) := by push_cast; omega
      rw [← hk] at h2
      omega
    rw [hstep]
    have hproj : ({ m with receivedLikes := wrap64 (m.receivedLikes + 1) } :
        Member).receivedLikes = wrap64 (m.receivedLikes + 1) := rfl
    have hrec := ih { m with receivedLikes := wrap64 (m.receivedLikes + 1) }
      (by rw [hproj, hw]; omega)
      (by rw [hproj, hw]
          rw [← hk] at h2
          omega)
    rw [hrec, hproj, hw, ← hk]
    ring

/-- C4 counterexample: under the program's int64 counter semantics the
universally quantified counter-floor claim is false at a concrete
input: applying 2^63 Added(Like) events to a freshly created record
(zero counters) leaves receivedLikes negative, because the int64
increment wraps at the 2^63-th event. -/
theorem counter_floor_overflow_int64 :
    ((List.replicate (2 ^ 63) ((EventKind.added, ThumbsUp) : EventKind × String)).foldl
        applyReconcileEvent64 (Member.mk 1 "2024-01" "U1" 0 0 0 0)).receivedLikes < 0 := by
  have hsplit : (2 ^ 63 : Nat) = (2 ^ 63 - 1) + 1 := by norm_num
  rw [hsplit, List.replicate_succ', List.foldl_append, List.foldl_cons, List.foldl_nil]
  have hmid := foldl_replicate_added_likes (2 ^ 63 - 1)
    (Member.mk 1 "2024-01" "U1" 0 0 0 0) (by norm_num)
    (by push_cast)
  have hstep : (applyReconcileEvent64
      ((List.replicate (2 ^ 63 - 1) ((EventKind.added, ThumbsUp) : EventKind × String)).foldl
        applyReconcileEvent64 (Member.mk 1 "2024-01" "U1" 0 0 0 0))
      (EventKind.added, ThumbsUp)).receivedLikes =
      wrap64 (((List.replicate (2 ^ 63 - 1) ((EventKind.added, ThumbsUp) : EventKind × String)).foldl
        applyReconcileEvent64 (Member.mk 1 "2024-01" "U1" 0 0 0 0)).receivedLikes + 1) := rfl
  rw [hstep, hmid]
  decide

/-- C4 amended: along any finite sequence of Added/Removed reconcile
events on one member record whose counters start non-negative and
short enough that no counter can be incremented past the int64 maximum
(starting counter plus sequence length at most 2^63 - 1 — in
particular a freshly created record with zero counters and fewer than
2^63 events), both counters stay non-negative, and a decrement applied
to a counter at zero leaves it at zero; without the length bound the
int64 increment wraps and the floor fails. -/
theorem counter_floor_int64 (events : List (EventKind × String)) (m0 : Member)
    (h1 : 0 ≤ m0.receivedLikes) (h2 : 0 ≤ m0.receivedDislikes)
    (h3 : m0.receivedLikes + events.length ≤ 2 ^ 63 - 1)
    (h4 : m0.receivedDislikes + events.length ≤ 2 ^ 63 - 1) :
    (0 ≤ (events.foldl applyReconcileEvent64 m0).receivedLikes ∧
      0 ≤ (events.foldl applyReconcileEvent64 m0).receivedDislikes) ∧
    (m0.receivedLikes = 0 → (applyRemovedDelta64 m0 ThumbsUp).receivedLikes = 0) ∧
    (m0.receivedDislikes = 0 →
      (applyRemovedDelta64 m0 ThumbsDown).receivedDislikes = 0) := by
  have hlen : (0:Int) ≤ events.length := Int.natCast_nonneg _
  have hbounds := foldl_reconcile64_bounds events m0
    (max m0.receivedLikes m0.receivedDislikes)
    (by rcases max_cases m0.receivedLikes m0.receivedDislikes with ⟨hm, _⟩ | ⟨hm, _⟩ <;>
        rw [hm] <;> omega)
    h1 (le_max_left _ _) h2 (le_max_right _ _)
  refine ⟨⟨hbounds.1.1, hbounds.2.1⟩, ?_, ?_⟩ <;>
    · intro hz
      show max64 (wrap64 _) 0 = 0
      rw [hz]
      decide

theorem counter_floor_int64_witness :
    0 ≤ (List.foldl applyReconcileEvent64
      (Member.mk 1 "2024-01" "U1" 0 0 0 0)
      [(EventKind.added, "+1"), (EventKind.removed, "+1"),
        (EventKind.removed, "-1")]).receivedLikes :=
  (counter_floor_int64 [(EventKind.added, "+1"), (EventKind.removed, "+1"),
      (EventKind.removed, "-1")]
    (Member.mk 1 "2024-01" "U1" 0 0 0 0) (by decide) (by decide)
    (by decide) (by decide)).1.1

/-- C1: evaluating `HandleReactionAddedEvent` against the sqlite store
on an empty database, for a reaction by "UA" on a message of "UB", the
record it creates (and then applies the delta to) carries the reacting
identity "UA", not the target identity "UB": the member row the
handler inserts is built from `e.User` instead of `e.ItemUser`,
contrary to the handler's own comment and log line. -/
theorem create_uses_reacting_identity :
    ((HandleReactionAddedEvent (sqliteService 7) (DB.mk [] 1) "2024-01"
          (ReactionEvent.mk "UA" "UB" "+1")).state.rows.map
        (fun r => (r.slackUid, r.receivedLikes)) = [("UA", 1)]) ∧
    ((HandleReactionAddedEvent (sqliteService 7) (DB.mk [] 1) "2024-01"
          (ReactionEvent.mk "UA" "UB" "+1")).state.rows.all
        (fun r => !(r.slackUid == "UB")) = true) := by
  exact ⟨rfl, rfl⟩

/-- C2 counterexample: a self-reaction (reacting identity equals target
identity "U1", which is neither empty nor the system-account sentinel)
on an empty store is not discarded: a member record is created, its
like counter is changed to 1, and the handler even returns a non-nil
error, so reconcile is not a no-op on self-reactions. -/
theorem self_reaction_not_filtered :
    ((HandleReactionAddedEvent (sqliteService 7) (DB.mk [] 1) "2024-01"
          (ReactionEvent.mk "U1" "U1" "+1")).state.rows.map
        (fun r => (r.slackUid, r.receivedLikes)) = [("U1", 1)]) ∧
    (HandleReactionAddedEvent (sqliteService 7) (DB.mk [] 1) "2024-01"
        (ReactionEvent.mk "U1" "U1" "+1")).state ≠ DB.mk [] 1 := by
  exact ⟨rfl, by decide⟩

/-- C2 amended: for a notification whose target identity equals the
system-account sentinel "USLACKBOT" or is empty, both reaction handlers
return immediately with a nil error and the member service is left
untouched (no record created, no counters changed), over any member
service implementation; self-reactions receive no special treatment. -/
theorem filter_sentinel_or_empty {σ : Type} (svc : MemberServiceI σ) (s : σ)
    (monthYear : String) (e : ReactionEvent)
    (h : e.itemUser = "USLACKBOT" ∨ e.itemUser = "") :
    HandleReactionAddedEvent svc s monthYear e = .ok s ∧
      HandleReactionRemovedEvent svc s monthYear e = .ok s := by
  rcases h with h | h <;>
    exact ⟨by simp [HandleReactionAddedEvent, h], by simp [HandleReactionRemovedEvent, h]⟩

theorem filter_sentinel_or_empty_witness :
    HandleReactionAddedEvent (sqliteService 0) (DB.mk [] 1) "2024-01"
        (ReactionEvent.mk "UA" "USLACKBOT" "+1") = .ok (DB.mk [] 1) ∧
      HandleReactionRemovedEvent (sqliteService 0) (DB.mk [] 1) "2024-01"
        (ReactionEvent.mk "UA" "USLACKBOT" "+1") = .ok (DB.mk [] 1) :=
  filter_sentinel_or_empty (sqliteService 0) (DB.mk [] 1) "2024-01"
    (ReactionEvent.mk "UA" "USLACKBOT" "+1") (Or.inl rfl)

/-- C5: when the target member already exists for the current period
(the initial FindMember succeeds with a nil error), both handlers reach
the unconditional `err.Error()` call with a nil error value and panic
instead of executing to completion: evaluated on a store holding a row
for "UB" in the event's period, each handler's outcome is the nil-error
dereference. -/
theorem nil_error_dereference_on_found_member :
    (HandleReactionAddedEvent (sqliteService 7)
        (DB.mk [GenMember.mk 1 "2024-01" "UB" 0 0 0 0] 2) "2024-01"
        (ReactionEvent.mk "UA" "UB" "+1") =
      .panicked (DB.mk [GenMember.mk 1 "2024-01" "UB" 0 0 0 0] 2)) ∧
    (HandleReactionRemovedEvent (sqliteService 7)
        (DB.mk [GenMember.mk 1 "2024-01" "UB" 0 0 0 0] 2) "2024-01"
        (ReactionEvent.mk "UA" "UB" "+1") =
      .panicked (DB.mk [GenMember.mk 1 "2024-01" "UB" 0 0 0 0] 2)) := by
  exact ⟨rfl, rfl⟩

/-- C6 counterexample: against a member service exhibiting the
concurrent-create race (lookup reports NotFound, create fails with a
uniqueness violation), the added handler surfaces the wrapped fatal
error after exactly one lookup and one create attempt — the call
counters finish at (1, 1) — rather than retrying the resolve step three
times before failing. -/
theorem no_retry_on_create_race :
    HandleReactionAddedEvent (racyService GoError.uniqueViolation) (0, 0) "2024-01"
        (ReactionEvent.mk "UA" "UB" "+1") =
      .err (.wrap "HandleReactionAddedEvent CreateMember itemMember"
        GoError.uniqueViolation) (1, 1) := by
  exact rfl

/-- C6 amended: when the lookup reports NotFound and the subsequent
create fails (for any error, in particular a concurrent uniqueness
violation), the added handler surfaces the wrapped error immediately
after a single lookup and a single create attempt; it performs no
retry and no recursion. -/
theorem single_create_attempt_surfaces_error (ce : GoError) (monthYear : String)
    (e : ReactionEvent) (f c : Nat)
    (h1 : ¬e.itemUser = "USLACKBOT") (h2 : ¬e.itemUser = "") :
    HandleReactionAddedEvent (racyService ce) (f, c) monthYear e =
      .err (.wrap "HandleReactionAddedEvent CreateMember itemMember" ce)
        (f + 1, c + 1) := by
  simp [HandleReactionAddedEvent, racyService, h1, h2, GoError.is]

theorem single_create_attempt_surfaces_error_witness :
    HandleReactionAddedEvent (racyService GoError.uniqueViolation) (4, 2) "2030-12"
        (ReactionEvent.mk "UA" "UB" "-1") =
      .err (.wrap "HandleReactionAddedEvent CreateMember itemMember"
        GoError.uniqueViolation) (5, 3) :=
  single_create_attempt_surfaces_error GoError.uniqueViolation "2030-12"
    (ReactionEvent.mk "UA" "UB" "-1") 4 2 (by decide) (by decide)

/-- C7: the leaderboard computation on a period with zero member rows
returns the driver's raw no-rows error from the generated max query,
and that error does not satisfy `errors.Is(err, stats.ErrNotFound)`,
contrary to FindLeaderboard's own doc comment. -/
theorem leaderboard_empty_period_not_notfound :
    FindLeaderboard (DB.mk [] 1) "2024-01" = .error GoError.sqlNoRows ∧
      GoError.is GoError.sqlNoRows GoError.notFound = false := by
  exact ⟨rfl, rfl⟩

theorem find?_map_patch (rows : List GenMember) (likes dislikes : Int) (u : Nat)
    (id j : Int) :
    ((rows.map (fun r =>
        if r.id == id then
          { r with receivedLikes := likes, receivedDislikes := dislikes,
                   updatedAt := u }
        else r)).find? (fun r => r.id == j)) =
      (rows.find? (fun r => r.id == j)).map (fun r =>
        if r.id == id then
          { r with receivedLikes := likes, receivedDislikes := dislikes,
                   updatedAt := u }
        else r) := by
  rw [List.find?_map]
  have hp : ((fun r : GenMember => r.id == j) ∘ fun r : GenMember =>
      if r.id == id then
        { r with receivedLikes := likes, receivedDislikes := dislikes,
                 updatedAt := u }
      else r) = fun r : GenMember => r.id == j := by
    funext r
    simp only [Function.comp_apply]
    by_cases hr : (r.id == id) = true
    · rw [if_pos hr]
    · rw [if_neg hr]
  rw [hp]

/-- C8: for every member record present in the store, UpdateMember
succeeds, and reading the record back shows each counter set to the
patch value exactly when its patch field is non-nil and kept at its old
value when the field is nil, with updatedAt recomputed to the current
time and the id, identity, period, and createdAt fields unchanged;
every record with a different id reads back exactly as before. -/
theorem update_member_sparse_patch (db : DB) (now : Nat) (id : Int)
    (upd : MemberUpdate) (m : Member) (h : FindMemberByID db id = .ok m) :
    (UpdateMember db now id upd).1 = .ok () ∧
    FindMemberByID (UpdateMember db now id upd).2 id =
      .ok (Member.mk m.id m.date m.slackUID
        (upd.receivedLikes.getD m.receivedLikes)
        (upd.receivedDislikes.getD m.receivedDislikes)
        m.createdAt now) ∧
    ∀ j : Int, ¬j = id →
      FindMemberByID (UpdateMember db now id upd).2 j = FindMemberByID db j := by
  rcases hg : db.rows.find? (fun r => r.id == id) with _ | g
  · exfalso
    simp [FindMemberByID, genFindMemberByID, hg] at h
  · have hpg : (g.id == id) = true := by
      have := List.find?_some hg
      simpa using this
    simp only [FindMemberByID, genFindMemberByID, hg, genMemberToMember] at h
    rw [Except.ok.injEq] at h
    subst h
    refine ⟨?_, ?_, ?_⟩
    · simp only [UpdateMember, genFindMemberByID, hg]
    · simp only [UpdateMember, genFindMemberByID, hg, genUpdateMember]
      rw [FindMemberByID]
      rw [genFindMemberByID]
      rw [find?_map_patch, hg]
      rw [Option.map_some']
      rw [if_pos hpg]
      cases upd.receivedLikes <;> cases upd.receivedDislikes <;> rfl
    · intro j hj
      simp only [UpdateMember, genFindMemberByID, hg, genUpdateMember]
      rw [FindMemberByID, FindMemberByID, genFindMemberByID, genFindMemberByID]
      rw [find?_map_patch]
      rcases hq : db.rows.find? (fun r => r.id == j) with _ | r
      · rw [hq]
        rfl
      · rw [hq]
        rw [Option.map_some']
        have hqr : (r.id == j) = true := by
          have := List.find?_some hq
          simpa using this
        have hrid : ¬(r.id == id) = true := by
          intro hcon
          exact hj (((beq_iff_eq).mp hqr).symm.trans ((beq_iff_eq).mp hcon))
        rw [if_neg hrid]

theorem update_member_sparse_patch_witness :
    (UpdateMember (DB.mk [GenMember.mk 1 "2024-01" "U1" 2 3 4 5,
        GenMember.mk 2 "2024-01" "U2" 7 8 9 9] 3) 11 1
        (MemberUpdate.mk (some 6) none)).1 = .ok () ∧
    FindMemberByID (UpdateMember (DB.mk [GenMember.mk 1 "2024-01" "U1" 2 3 4 5,
        GenMember.mk 2 "2024-01" "U2" 7 8 9 9] 3) 11 1
        (MemberUpdate.mk (some 6) none)).2 2 =
      FindMemberByID (DB.mk [GenMember.mk 1 "2024-01" "U1" 2 3 4 5,
        GenMember.mk 2 "2024-01" "U2" 7 8 9 9] 3) 2 :=
  ⟨(update_member_sparse_patch (DB.mk [GenMember.mk 1 "2024-01" "U1" 2 3 4 5,
        GenMember.mk 2 "2024-01" "U2" 7 8 9 9] 3) 11 1
      (MemberUpdate.mk (some 6) none)
      (Member.mk 1 "2024-01" "U1" 2 3 4 5) rfl).1,
    (update_member_sparse_patch (DB.mk [GenMember.mk 1 "2024-01" "U1" 2 3 4 5,
        GenMember.mk 2 "2024-01" "U2" 7 8 9 9] 3) 11 1
      (MemberUpdate.mk (some 6) none)
      (Member.mk 1 "2024-01" "U1" 2 3 4 5) rfl).2.2 2 (by decide)⟩

/-- C9 counterexample: on a store with no record for id 1, UpdateMember
fails with the wrapped raw no-rows error, which does not satisfy
`errors.Is(err, stats.ErrNotFound)`; so the claim that it fails with
the NotFound error is false (the store is indeed unchanged). -/
theorem update_missing_id_error_not_notfound :
    (UpdateMember (DB.mk [] 1) 5 1 (MemberUpdate.mk (some 3) none)).1 =
      .error (.wrap "UpdateMember FindMemberByID" GoError.sqlNoRows) ∧
    GoError.is (GoError.wrap "UpdateMember FindMemberByID" GoError.sqlNoRows)
      GoError.notFound = false ∧
    (UpdateMember (DB.mk [] 1) 5 1 (MemberUpdate.mk (some 3) none)).2 =
      DB.mk [] 1 := by
  exact ⟨rfl, rfl, rfl⟩

/-- C9 amended: for every id with no member record in the store,
UpdateMember fails with an error that wraps the driver's no-rows error
— an error for which `errors.Is(err, stats.ErrNotFound)` is false, not
the NotFound sentinel — and the store state is unchanged by the failed
call. -/
theorem update_missing_id_fails_store_unchanged (db : DB) (now : Nat) (id : Int)
    (upd : MemberUpdate) (h : ∀ r ∈ db.rows, r.id ≠ id) :
    (UpdateMember db now id upd).1 =
      .error (.wrap "UpdateMember FindMemberByID" GoError.sqlNoRows) ∧
    GoError.is (GoError.wrap "UpdateMember FindMemberByID" GoError.sqlNoRows)
      GoError.notFound = false ∧
    (UpdateMember db now id upd).2 = db := by
  have hnone : db.rows.find? (fun r => r.id == id) = none := by
    rw [List.find?_eq_none]
    intro r hr
    simpa using h r hr
  refine ⟨?_, rfl, ?_⟩ <;> simp [UpdateMember, genFindMemberByID, hnone]

theorem update_missing_id_fails_store_unchanged_witness :
    (UpdateMember (DB.mk [GenMember.mk 2 "2024-01" "U2" 0 0 0 0] 3) 5 1
        (MemberUpdate.mk none (some 4))).1 =
      .error (.wrap "UpdateMember FindMemberByID" GoError.sqlNoRows) ∧
    GoError.is (GoError.wrap "UpdateMember FindMemberByID" GoError.sqlNoRows)
      GoError.notFound = false ∧
    (UpdateMember (DB.mk [GenMember.mk 2 "2024-01" "U2" 0 0 0 0] 3) 5 1
        (MemberUpdate.mk none (some 4))).2 =
      DB.mk [GenMember.mk 2 "2024-01" "U2" 0 0 0 0] 3 :=
  update_missing_id_fails_store_unchanged
    (DB.mk [GenMember.mk 2 "2024-01" "U2" 0 0 0 0] 3) 5 1
    (MemberUpdate.mk none (some 4)) (by decide)

/-- C10: creating a member for an (identity, period) pair the store has
no record of succeeds, and finding that member back by identity and
period returns a record with both counters zero and createdAt equal to
updatedAt. -/
theorem create_find_round_trip (db : DB) (now : Nat) (identity P : String)
    (h : ∀ r ∈ db.rows, ¬(r.slackUid = identity ∧ r.monthYear = P)) :
    ∃ m : Member,
      (CreateMember db now (Member.mk 0 P identity 0 0 0 0)).1 = .ok m ∧
      FindMember (CreateMember db now (Member.mk 0 P identity 0 0 0 0)).2
        identity P = .ok m ∧
      m.receivedLikes = 0 ∧ m.receivedDislikes = 0 ∧ m.createdAt = m.updatedAt := by
  have hpred : ∀ r ∈ db.rows,
      ¬((fun r : GenMember => r.slackUid == identity && r.monthYear == P) r = true) := by
    intro r hr
    simpa using h r hr
  have hany : db.rows.any (fun r => r.slackUid == identity && r.monthYear == P) = false :=
    List.any_eq_false.mpr hpred
  have hnone : db.rows.find? (fun r => r.slackUid == identity && r.monthYear == P) = none :=
    List.find?_eq_none.mpr hpred
  refine ⟨Member.mk db.nextId P identity 0 0 now now, ?_, ?_, rfl, rfl, rfl⟩
  · simp [CreateMember, genCreateMember, hany]
  · simp [CreateMember, genCreateMember, hany, FindMember, genFindMember,
      List.find?_append, hnone, genMemberToMember]

theorem create_find_round_trip_witness :
    ∃ m : Member,
      (CreateMember (DB.mk [] 1) 7 (Member.mk 0 "2024-01" "U1" 0 0 0 0)).1 = .ok m ∧
      FindMember (CreateMember (DB.mk [] 1) 7
        (Member.mk 0 "2024-01" "U1" 0 0 0 0)).2 "U1" "2024-01" = .ok m ∧
      m.receivedLikes = 0 ∧ m.receivedDislikes = 0 ∧ m.createdAt = m.updatedAt :=
  create_find_round_trip (DB.mk [] 1) 7 "U1" "2024-01" (by decide)

end Stats
